import Mathlib

/-!
Verification of the task lifecycle and recipient-completion tracking engine of
the TelegramAssistant bot (src/TelegramAssistant/database.py, bot.py).

The relational store (SQLite tables chats, tasks, task_recipients, task_media,
response_media) is embedded as lists of rows in insertion order; a SELECT
without ORDER BY returns rows in that order, ORDER BY is an explicit sort.
Timestamps (created_at) are natural numbers supplied by the caller as a clock
input.  Python string operations are embedded as structural functions on
character lists; str.strip is modelled for the ASCII whitespace characters
(space, tab, carriage return, newline), which covers every string the bot
manipulates.  Raised exceptions are modelled with Except; a function that
catches an exception and returns a value maps the error to that value.
-/

/-! ## Character-list models of the Python string operations -/

/-- Whitespace test used by the model of Python str.strip. -/
def wsChar (c : Char) : Bool :=
  c == ' ' || c == '\t' || c == '\r' || c == '\n'

/-- Model of Python str.strip on a character list. -/
def trimChars (l : List Char) : List Char :=
  ((l.dropWhile wsChar).reverse.dropWhile wsChar).reverse

/-- Model of Python str.strip. -/
def strip (s : String) : String :=
  String.mk (trimChars s.toList)

/-- Is the first list a prefix of the second (Python str.startswith). -/
def isPrefixCh : List Char → List Char → Bool
  | [], _ => true
  | _ :: _, [] => false
  | a :: ps, b :: ls => a == b && isPrefixCh ps ls

/-- Does pat occur as a contiguous sublist (Python `pat in s`). -/
def containsCh (pat : List Char) : List Char → Bool
  | [] => isPrefixCh pat []
  | c :: ls => isPrefixCh pat (c :: ls) || containsCh pat ls

/-- Characters after the first occurrence of pat (Python s.split(pat, 1)[1]),
none when pat does not occur. -/
def afterFirst (pat : List Char) : List Char → Option (List Char)
  | [] => if isPrefixCh pat [] then some [] else none
  | c :: ls =>
    if isPrefixCh pat (c :: ls) then some ((c :: ls).drop pat.length)
    else afterFirst pat ls

/-- Model of Python s.split(sep) for a single-character separator. -/
def splitOnCh (sep : Char) : List Char → List (List Char)
  | [] => [[]]
  | c :: ls =>
    if c == sep then [] :: splitOnCh sep ls
    else
      match splitOnCh sep ls with
      | [] => [[c]]
      | l :: rest => (c :: l) :: rest

/-- Model of Python sep.join for a single-character separator. -/
def joinCh (sep : Char) : List (List Char) → List Char
  | [] => []
  | [l] => l
  | l :: ls => l ++ sep :: joinCh sep ls

/-! ## Rows and database state (schema at database.py 17-111) -/

/-- A row of the `tasks` table: id (AUTOINCREMENT), text, status
(DEFAULT 'active'), created_by, created_at. -/
structure TaskRow where
  id : Nat
  text : String
  status : String
  createdBy : Int
  createdAt : Nat
deriving Repr, DecidableEq

/-- A row of the `task_recipients` table: task_id, chat_id, group_id,
status (DEFAULT 'pending'); PRIMARY KEY (task_id, chat_id).  The table has
no `id` column. -/
structure RecipientRow where
  taskId : Nat
  chatId : Int
  groupId : Option Nat
  status : String
deriving Repr, DecidableEq

/-- A row of the `chats` table (chat_id PRIMARY KEY, title). -/
structure ChatRow where
  chatId : Int
  title : String
deriving Repr, DecidableEq

/-- A row of the `response_media` table. -/
structure ResponseMediaRow where
  taskId : Nat
  chatId : Int
  fileId : String
  fileType : String
deriving Repr, DecidableEq

/-- A row of the `task_media` table. -/
structure TaskMediaRow where
  taskId : Nat
  fileId : String
  fileType : String
deriving Repr, DecidableEq

/-- The persistent state of the SQLite database.  Lists hold rows in
insertion order; nextTaskId is the AUTOINCREMENT counter of `tasks`. -/
structure DBState where
  chats : List ChatRow
  tasks : List TaskRow
  recipients : List RecipientRow
  taskMedia : List TaskMediaRow
  responseMedia : List ResponseMediaRow
  nextTaskId : Nat
deriving Repr, DecidableEq

/-- Status of the task row with the given id (first row in table order). -/
def taskStatus (s : DBState) (tid : Nat) : Option String :=
  (s.tasks.find? (fun t => t.id == tid)).map (fun t => t.status)

/-- Status of the task_recipients row with the given key. -/
def recStatus (s : DBState) (tid : Nat) (cid : Int) : Option String :=
  (s.recipients.find? (fun r => r.taskId == tid && r.chatId == cid)).map
    (fun r => r.status)

/-- Does some task_recipients row for the task exist. -/
def hasRecipient (s : DBState) (tid : Nat) : Bool :=
  s.recipients.any (fun r => r.taskId == tid)

/-- Are all task_recipients rows of the task completed. -/
def allRecipientsCompleted (s : DBState) (tid : Nat) : Bool :=
  (s.recipients.filter (fun r => r.taskId == tid)).all
    (fun r => r.status == "completed")

/-- SELECT title FROM chats WHERE chat_id = ? returns a row (bot.py 205-206). -/
def chatRegistered (s : DBState) (cid : Int) : Bool :=
  s.chats.any (fun c => c.chatId == cid)

/-- Is there a task_recipients row for (tid, cid) whose status is not
completed (the join condition shared by the reply-matching queries). -/
def pendingRecFor (s : DBState) (tid : Nat) (cid : Int) : Bool :=
  s.recipients.any
    (fun r => r.taskId == tid && r.chatId == cid && r.status != "completed")

/-! ## The completion transaction (bot.py 239-263 and 469-498)

Both live completion paths run the same transaction: UPDATE the
task_recipients row for (task_id, chat_id) to the new status, then
SELECT COUNT(*), SUM(CASE WHEN status = 'completed' THEN 1 ELSE 0 END)
for the task, and if the two agree UPDATE the task's own status to
'completed'.  SUM over an empty set is NULL and Python's `total == completed`
is False for None, hence the `length != 0` conjunct. -/

/-- The UPDATE task_recipients SET status = ? WHERE task_id = ? AND chat_id = ?
statement. -/
def markRecipients (recips : List RecipientRow) (tid : Nat) (cid : Int)
    (newStatus : String) : List RecipientRow :=
  recips.map (fun r =>
    if r.taskId == tid && r.chatId == cid then { r with status := newStatus } else r)

/-- The COUNT(*) vs SUM(status = 'completed') comparison over the task's
task_recipients rows. -/
def completionRecount (recips : List RecipientRow) (tid : Nat) : Bool :=
  let target := recips.filter (fun r => r.taskId == tid)
  target.length != 0 &&
    target.length == (target.filter (fun r => r.status == "completed")).length

/-- The UPDATE tasks SET status = 'completed' WHERE id = ? statement. -/
def markTaskCompleted (tasks : List TaskRow) (tid : Nat) : List TaskRow :=
  tasks.map (fun t => if t.id == tid then { t with status := "completed" } else t)

/-- The completion transaction body shared by both reply paths. -/
def applyStatusUpdate (s : DBState) (tid : Nat) (cid : Int) (newStatus : String) :
    DBState :=
  let recips := markRecipients s.recipients tid cid newStatus
  let tasks :=
    if completionRecount recips tid then markTaskCompleted s.tasks tid else s.tasks
  { s with tasks := tasks, recipients := recips }

/-! ## Database methods (database.py) -/

/-- Embeds `Database.update_task_status` (database.py 271-341).  Its guard
query is `SELECT tr.id, tr.status, t.text FROM task_recipients tr JOIN tasks t
ON tr.task_id = t.id WHERE ...`.  The table `task_recipients` (database.py
63-74) has columns task_id, chat_id, group_id, status and a composite primary
key, so SQLite provides no `id` column or alias for it, and the statement
raises `sqlite3.OperationalError: no such column: tr.id` on every call.  The
inner handler rolls the transaction back (no state change) and re-raises; the
outer handler logs and re-raises.  `Except.error` models the raised
exception; everything after the guard SELECT (the not-found logging branch,
the recipient UPDATE, the recount and the task UPDATE) is unreachable. -/
def update_task_status (s : DBState) (task_id : Nat) (chat_id : Int)
    (status : String) : Except String DBState :=
  Except.error "no such column: tr.id"

/-- Embeds `Database.create_task` (database.py 235-257).  The INSERT runs via
`execute_query`, which opens a fresh connection, commits and closes; the
subsequent `SELECT last_insert_rowid() as id` also runs on a fresh connection,
on which no INSERT has happened, so it yields 0.  The result list
`[{id: 0}]` is truthy, so the `raise ValueError` branch is unreachable and
the method returns 0, never the new row's id.  No validation of `text` is
performed; the row is inserted with status 'active' even for empty text. -/
def create_task (s : DBState) (text : String) (created_by : Int)
    (created_at : Nat) : DBState × Nat :=
  let s' : DBState :=
    { s with
      tasks := s.tasks ++ [⟨s.nextTaskId, text, "active", created_by, created_at⟩],
      nextTaskId := s.nextTaskId + 1 }
  (s', 0)

/-- Embeds `Database.add_task_recipient` (database.py 259-269): one INSERT
INTO task_recipients with status defaulting to 'pending'.  A duplicate
(task_id, chat_id) violates the composite primary key: sqlite raises,
execute_query rolls back (state unchanged) and re-raises.  Foreign keys are
declared but SQLite does not enforce them by default, so a task_id matching
no task row is accepted. -/
def add_task_recipient (s : DBState) (task_id : Nat) (chat_id : Int)
    (group_id : Option Nat) : Except String DBState :=
  if s.recipients.any (fun r => r.taskId == task_id && r.chatId == chat_id) then
    Except.error "UNIQUE constraint failed: task_recipients.task_id, task_recipients.chat_id"
  else
    Except.ok
      { s with recipients := s.recipients ++ [⟨task_id, chat_id, group_id, "pending"⟩] }

/-- Embeds the control flow of `Database.execute_query` (database.py 113-138).
`engine` is the behavior of the SQL engine on the fresh connection: either the
mutated state with the statement's result, or a raised error.  On success of a
non-SELECT the commit persists the mutation; on an engine error the
transaction is rolled back — the persisted state is the pre-call state — and
the exception is re-raised to the caller. -/
def execute_query {α : Type} (s : DBState)
    (engine : Except String (DBState × α)) : DBState × Except String α :=
  match engine with
  | Except.ok (s', r) => (s', Except.ok r)
  | Except.error e => (s, Except.error e)

/-! ## Sorting for ORDER BY created_at DESC (bot.py 220) -/

/-- Insert into a list kept in descending created_at order. -/
def insertByCreatedDesc (t : TaskRow) : List TaskRow → List TaskRow
  | [] => [t]
  | x :: xs =>
    if x.createdAt ≤ t.createdAt then t :: x :: xs
    else x :: insertByCreatedDesc t xs

/-- Model of ORDER BY created_at DESC. -/
def sortByCreatedDesc : List TaskRow → List TaskRow
  | [] => []
  | x :: xs => insertByCreatedDesc x (sortByCreatedDesc xs)

/-! ## Reply matching: the text path (bot.py handle_message, 174-279) -/

/-- The announcement marker of a single-task message (bot.py 181, 930). -/
def announcementMarker : String := "📝 Новое задание:"

/-- Task-text extraction of the text-reply path (bot.py 181-196): the
original message must start with the announcement marker; the remainder is
stripped.  This path performs no emptiness check on the result. -/
def extract_task_text (original : String) : Option String :=
  if isPrefixCh announcementMarker.toList original.toList then
    some (String.mk (trimChars (original.toList.drop announcementMarker.toList.length)))
  else none

/-- The candidate query of the text path (bot.py 213-221): active tasks with
a non-completed task_recipients row for the chat, ORDER BY created_at DESC. -/
def activeTasksForChat (s : DBState) (cid : Int) : List TaskRow :=
  sortByCreatedDesc
    (s.tasks.filter (fun t => t.status == "active" && pendingRecFor s t.id cid))

/-- Outcome of the text-reply branch of handle_message. -/
inductive TextReplyOutcome where
  | badFormat
  | chatNotRegistered
  | noMatch
  | completed (task_id : Nat)
deriving Repr, DecidableEq

/-- Embeds the reply branch of `handle_message` (bot.py 174-279): extract the
task text from the replied-to announcement; reject when the chat is not in the
chats table (bot.py 205-210); fetch the active candidates ordered by
created_at DESC; take the first whose stored text, stripped, equals the
extracted text (bot.py 226-233); on a match run the completion transaction
(bot.py 239-263). -/
def handle_text_reply (s : DBState) (cid : Int) (original : String) :
    DBState × TextReplyOutcome :=
  match extract_task_text original with
  | none => (s, TextReplyOutcome.badFormat)
  | some task_text =>
    if !chatRegistered s cid then (s, TextReplyOutcome.chatNotRegistered)
    else
      match (activeTasksForChat s cid).find? (fun t => strip t.text == task_text) with
      | some t => (applyStatusUpdate s t.id cid "completed", TextReplyOutcome.completed t.id)
      | none => (s, TextReplyOutcome.noMatch)

/-! ## Reply matching: the media path (bot.py handle_media_message, 363-515) -/

/-- The multi-line task-block marker (bot.py 412). -/
def taskNumMarker : String := "📝 Задание №"

/-- The recipients section marker (bot.py 421-423). -/
def recipientsMarker : String := "Получатели:"

/-- The line loop of the block format (bot.py 413-424): skip until a line
containing the block marker, then collect stripped non-empty lines, stopping
at a line that starts with the recipients marker. -/
def taskBlockLines : List (List Char) → Bool → List (List Char)
  | [], _ => []
  | line :: rest, found =>
    if containsCh taskNumMarker.toList line then taskBlockLines rest true
    else if found && !(trimChars line).isEmpty && !isPrefixCh recipientsMarker.toList line then
      trimChars line :: taskBlockLines rest found
    else if found && isPrefixCh recipientsMarker.toList line then []
    else taskBlockLines rest found

/-- Task-text extraction of the media-reply path (bot.py 403-435): if the
announcement marker occurs anywhere, everything after its first occurrence is
stripped; otherwise the multi-line block format is parsed; a None or empty
result is rejected (`if not task_text`, bot.py 429). -/
def extract_media_task_text (original : String) : Option String :=
  let o := original.toList
  let raw : Option (List Char) :=
    if containsCh announcementMarker.toList o then
      (afterFirst announcementMarker.toList o).map trimChars
    else if containsCh taskNumMarker.toList o then
      let ls := taskBlockLines (splitOnCh '\n' o) false
      if ls.isEmpty then none else some (joinCh '\n' ls)
    else none
  match raw with
  | some cs => if cs.isEmpty then none else some (String.mk cs)
  | none => none

/-- The candidate query of the media path (bot.py 448-456): active tasks whose
raw stored text equals the extracted text (no strip on the stored side) with a
non-completed task_recipients row for the chat.  The query has no ORDER BY;
rows come back in table order and `fetchone` takes the first. -/
def mediaMatchCandidates (s : DBState) (cid : Int) (txt : String) : List TaskRow :=
  s.tasks.filter
    (fun t => t.status == "active" && t.text == txt && pendingRecFor s t.id cid)

/-- Outcome of the media-reply branch of handle_media_message. -/
inductive MediaReplyOutcome where
  | extractionFailed
  | notFound
  | completed (task_id : Nat)
deriving Repr, DecidableEq

/-- Embeds the reply branch of `handle_media_message` (bot.py 383-515) for a
replied-to message with text and a supported file: extract the task text;
look up the first matching candidate (no registration check, no ordering); on
a match INSERT the response_media row (bot.py 470-473) and run the completion
transaction (bot.py 476-498). -/
def handle_media_reply (s : DBState) (cid : Int) (original : String)
    (file_id file_type : String) : DBState × MediaReplyOutcome :=
  match extract_media_task_text original with
  | none => (s, MediaReplyOutcome.extractionFailed)
  | some txt =>
    match (mediaMatchCandidates s cid txt).head? with
    | none => (s, MediaReplyOutcome.notFound)
    | some t =>
      let s1 : DBState :=
        { s with responseMedia := s.responseMedia ++ [⟨t.id, cid, file_id, file_type⟩] }
      (applyStatusUpdate s1 t.id cid "completed", MediaReplyOutcome.completed t.id)

/-! ## Fan-out (bot.py handle_recipient_selection 967-1035, send_task_to_chat 915-965)

`send_task_to_chat` catches every delivery exception and returns a boolean;
its outcome for a given chat is an input to the model (the oracle sendOk). -/

/-- The per-chat loop of the individual-chat branch (bot.py 1012-1024): resolve
each selected title to the first chats row with that title (a missing title is
silently skipped and not counted); for each resolved chat count the attempt,
and only when the send succeeds count the success and INSERT the
task_recipients row.  A raise from the INSERT aborts the whole handler. -/
def fanout_chats (s : DBState) (task_id : Nat) (titles : List String)
    (sendOk : Int → Bool) (succ total : Nat) :
    Except String (DBState × Nat × Nat) :=
  match titles with
  | [] => Except.ok (s, succ, total)
  | title :: rest =>
    match s.chats.find? (fun c => c.title == title) with
    | none => fanout_chats s task_id rest sendOk succ total
    | some c =>
      if sendOk c.chatId then
        match add_task_recipient s task_id c.chatId none with
        | Except.ok s' => fanout_chats s' task_id rest sendOk (succ + 1) (total + 1)
        | Except.error e => Except.error e
      else fanout_chats s task_id rest sendOk succ (total + 1)

/-- Embeds the confirm branch of `handle_recipient_selection` (bot.py
972-1035) for selection_type 'chat': reject a missing or empty task text
(bot.py 973-976, Python truthiness); create the task — create_task returns 0,
see its docstring — insert the task_media rows under that returned id; run the
per-chat loop with it; report the delivered/total counts (bot.py 1027-1030).
`none` as the report models the early error return. -/
def handle_confirm (s : DBState) (task_text : Option String) (created_by : Int)
    (created_at : Nat) (media_files : List (String × String))
    (selected_titles : List String) (sendOk : Int → Bool) :
    Except String (DBState × Option (Nat × Nat)) :=
  match task_text with
  | none => Except.ok (s, none)
  | some txt =>
    if txt == "" then Except.ok (s, none)
    else
      let p := create_task s txt created_by created_at
      let task_id := p.2
      let s2 : DBState :=
        { p.1 with taskMedia := p.1.taskMedia ++
            media_files.map (fun m => ⟨task_id, m.1, m.2⟩) }
      match fanout_chats s2 task_id selected_titles sendOk 0 0 with
      | Except.ok (s3, succ, total) => Except.ok (s3, some (succ, total))
      | Except.error e => Except.error e

/-! ## get_active_tasks (database.py 154-233) -/

/-- One row of the active-tasks query (database.py 157-183). -/
structure ActiveRow where
  id : Nat
  text : String
  createdAt : Nat
  chatTitle : String
  recipientStatus : String
  chatId : Int
  groupName : Option String
  taskStatus : String
  taskMedia : Option String
  responseMedia : Option String
deriving Repr, DecidableEq

/-- One recipient entry of a task snapshot (database.py 210-215). -/
structure RecipientSnapshot where
  chatTitle : String
  status : String
  groupName : Option String
  media : List (String × String)
deriving Repr, DecidableEq

/-- One grouped task (database.py 193-198). -/
structure TaskSnapshot where
  text : String
  createdAt : Nat
  recipients : List (Int × RecipientSnapshot)
  media : List (String × String)
deriving Repr, DecidableEq

/-- Media parsing (database.py 200-206, 217-223): a GROUP_CONCAT value is
split on ',' and each entry on ':'; Python's two-name unpacking raises
ValueError unless the entry has exactly two parts.  A NULL (None) value is
skipped by the `if row[...]` test. -/
def parseMediaConcat (v : Option String) : Except String (List (String × String)) :=
  match v with
  | none => Except.ok []
  | some str =>
    if str == "" then Except.ok []
    else
      (splitOnCh ',' str.toList).foldlM
        (fun acc entry =>
          match splitOnCh ':' entry with
          | [a, b] => Except.ok (acc ++ [(String.mk a, String.mk b)])
          | _ => Except.error "ValueError: unpack")
        []

/-- Adds one query row to the grouped mapping (database.py 190-223): a new
task id appends a snapshot with its task media parsed; a new chat id under a
known task appends a recipient entry with its response media parsed. -/
def addActiveRow (acc : List (Nat × TaskSnapshot)) (r : ActiveRow) :
    Except String (List (Nat × TaskSnapshot)) :=
  match (parseMediaConcat r.responseMedia).map
      (fun ms => (⟨r.chatTitle, r.recipientStatus, r.groupName, ms⟩ : RecipientSnapshot)) with
  | Except.error e => Except.error e
  | Except.ok rcpt =>
    if acc.any (fun kv => kv.1 == r.id) then
      Except.ok (acc.map (fun kv =>
        if kv.1 == r.id && !(kv.2.recipients.any (fun rc => rc.1 == r.chatId)) then
          (kv.1, { kv.2 with recipients := kv.2.recipients ++ [(r.chatId, rcpt)] })
        else kv))
    else
      match parseMediaConcat r.taskMedia with
      | Except.error e => Except.error e
      | Except.ok tms =>
        Except.ok (acc ++ [(r.id, ⟨r.text, r.createdAt, [(r.chatId, rcpt)], tms⟩)])

/-- Embeds `Database.get_active_tasks` (database.py 154-233) as a function of
the outcome of its single SQL query (run through execute_query, which may
re-raise a storage failure).  The entire body sits in a `try` whose `except`
branch logs and returns an empty mapping, so a storage failure — or a
ValueError from media parsing — is converted into `{}`, not propagated. -/
def get_active_tasks (queryOutcome : Except String (List ActiveRow)) :
    List (Nat × TaskSnapshot) :=
  match queryOutcome with
  | Except.error _ => []
  | Except.ok rows =>
    match rows.foldlM addActiveRow [] with
    | Except.error _ => []
    | Except.ok grouped => grouped

/-! ## Operation sequences over the store (for the status-monotonicity claims) -/

/-- The mutating operations of the store, as invoked by the bot: task
creation and recipient inserts from the fan-out, both reply-completion
handlers, and Database.update_task_status. -/
inductive Op where
  | createTask (text : String) (created_by : Int) (created_at : Nat)
  | addRecipient (task_id : Nat) (chat_id : Int) (group_id : Option Nat)
  | textReply (chat_id : Int) (original : String)
  | mediaReply (chat_id : Int) (original : String) (file_id file_type : String)
  | updateStatus (task_id : Nat) (chat_id : Int) (status : String)
deriving Repr

/-- The state reached after one operation; a raised exception leaves the
committed state unchanged (rollback). -/
def stepOp (s : DBState) : Op → DBState
  | Op.createTask text by_ at_ => (create_task s text by_ at_).1
  | Op.addRecipient tid cid gid =>
    match add_task_recipient s tid cid gid with
    | Except.ok s' => s'
    | Except.error _ => s
  | Op.textReply cid msg => (handle_text_reply s cid msg).1
  | Op.mediaReply cid msg fid ft => (handle_media_reply s cid msg fid ft).1
  | Op.updateStatus tid cid st =>
    match update_task_status s tid cid st with
    | Except.ok s' => s'
    | Except.error _ => s

/-- The state reached after a sequence of operations. -/
def runOps (s : DBState) : List Op → DBState
  | [] => s
  | op :: ops => runOps (stepOp s op) ops

/-! ## Derived predicates and concrete states used by the theorems -/

/-- The tasks.id PRIMARY KEY constraint: pairwise distinct ids. -/
def uniqueTaskIds : List TaskRow → Bool
  | [] => true
  | t :: ts => ts.all (fun u => u.id != t.id) && uniqueTaskIds ts

/-- A task that the text-reply path treats as a match for extracted text txt:
active, with a non-completed task_recipients row for the chat, and whose
stored text stripped equals txt. -/
def textReplyCandidate (s : DBState) (cid : Int) (txt : String) (t : TaskRow) : Bool :=
  (t.status == "active" && pendingRecFor s t.id cid) && (strip t.text == txt)

/-- Descending created_at order (the ORDER BY of the text path). -/
def DescSorted : List TaskRow → Prop :=
  List.Pairwise (fun a b => b.createdAt ≤ a.createdAt)

/-- A one-task, one-recipient, one-chat database. -/
def mkSingleTaskState (t : TaskRow) (cid : Int) (title : String) : DBState :=
  ⟨[⟨cid, title⟩], [t], [⟨t.id, cid, none, "pending"⟩], [], [], t.id + 1⟩

/-- Witness state for the completion-aggregation claim: task 1 is active with
recipient 5 pending and recipient 6 already completed. -/
def c1State : DBState :=
  ⟨[⟨5, "A"⟩], [⟨1, "Do", "active", 7, 0⟩],
   [⟨1, 5, none, "pending"⟩, ⟨1, 6, none, "completed"⟩], [], [], 2⟩

/-- c1State after recipient 5 replies: everything completed. -/
def c1After : DBState :=
  ⟨[⟨5, "A"⟩], [⟨1, "Do", "completed", 7, 0⟩],
   [⟨1, 5, none, "completed"⟩, ⟨1, 6, none, "completed"⟩], [], [], 2⟩

/-- Counterexample state for the trimming claim: the stored task text has a
trailing space. -/
def c3State : DBState := mkSingleTaskState ⟨1, "Buy milk ", "active", 7, 0⟩ 5 "A"

/-- Initial state for the fan-out evaluation: three registered chats, no
tasks. -/
def c4State : DBState := ⟨[⟨1, "A"⟩, ⟨2, "B"⟩, ⟨3, "C"⟩], [], [], [], [], 1⟩

/-- c4State after the confirmed fan-out of "Buy milk" to A, B, C with the
send to chat 2 failing: the task is created with id 1, but the recipient rows
of the two successful sends carry task_id 0, the value create_task returned. -/
def c4After : DBState :=
  ⟨[⟨1, "A"⟩, ⟨2, "B"⟩, ⟨3, "C"⟩], [⟨1, "Buy milk", "active", 42, 0⟩],
   [⟨0, 1, none, "pending"⟩, ⟨0, 3, none, "pending"⟩], [], [], 2⟩

/-- State for the tie-break claim: two active tasks with identical text
"Do it", both pending for chat 5; task 2 is the more recently created. -/
def c5State : DBState :=
  ⟨[⟨5, "A"⟩], [⟨1, "Do it", "active", 7, 1⟩, ⟨2, "Do it", "active", 7, 2⟩],
   [⟨1, 5, none, "pending"⟩, ⟨2, 5, none, "pending"⟩], [], [], 3⟩

/-- c5State after the text reply: the most recent task (2) is completed. -/
def c5After : DBState :=
  ⟨[⟨5, "A"⟩], [⟨1, "Do it", "active", 7, 1⟩, ⟨2, "Do it", "completed", 7, 2⟩],
   [⟨1, 5, none, "pending"⟩, ⟨2, 5, none, "completed"⟩], [], [], 3⟩

/-- Witness state for the monotonicity claim: recipient (1, 5) and task 1 are
already completed. -/
def c7State : DBState :=
  ⟨[⟨5, "A"⟩], [⟨1, "x", "completed", 7, 0⟩], [⟨1, 5, none, "completed"⟩], [], [], 2⟩

/-- Operations thrown at c7State: inserts, a reply to the completed task, and
a Database.update_task_status call. -/
def c7Ops : List Op :=
  [Op.createTask "y" 7 1, Op.addRecipient 1 6 none,
   Op.textReply 5 "📝 Новое задание: x", Op.updateStatus 1 5 "pending"]

/-- Witness state for the empty-text claim. -/
def c8State : DBState := ⟨[], [], [], [], [], 1⟩

/-- Witness state for the registration-check claim: a pending recipient row
for chat 5 exists but chat 5 is not in the chats table. -/
def c10State : DBState :=
  ⟨[], [⟨1, "Do", "active", 7, 0⟩], [⟨1, 5, none, "pending"⟩], [], [], 2⟩

/-! ## Helper lemmas -/

theorem length_filter_eq_iff_all {α : Type} (p : α → Bool) (l : List α) :
    ((l.filter p).length = l.length) ↔ l.all p = true := by
  induction l with
  | nil => simp
  | cons a t ih =>
    by_cases h : p a = true
    · simp [List.filter_cons, h, ih]
    · have hle := List.length_filter_le p t
      simp [List.filter_cons, h]
      omega

theorem band_elim {a b : Bool} (h : (a && b) = true) : a = true ∧ b = true :=
  (Bool.and_eq_true a b) ▸ h

theorem find?_append_some {α : Type} {p : α → Bool} {l l' : List α} {a : α}
    (h : l.find? p = some a) : (l ++ l').find? p = some a := by
  rw [List.find?_append, h]; rfl

theorem find?_map_pres {α : Type} (f : α → α) (p : α → Bool)
    (hf : ∀ a, p (f a) = p a) (l : List α) :
    (l.map f).find? p = Option.map f (l.find? p) := by
  rw [List.find?_map]
  have hpf : p ∘ f = p := funext hf
  rw [hpf]

theorem mem_insertByCreatedDesc {a t : TaskRow} {l : List TaskRow} :
    a ∈ insertByCreatedDesc t l ↔ a = t ∨ a ∈ l := by
  induction l with
  | nil => simp [insertByCreatedDesc]
  | cons x xs ih =>
    by_cases h : x.createdAt ≤ t.createdAt
    · simp [insertByCreatedDesc, h]
    · simp [insertByCreatedDesc, h, ih]
      tauto

theorem mem_sortByCreatedDesc {a : TaskRow} {l : List TaskRow} :
    a ∈ sortByCreatedDesc l ↔ a ∈ l := by
  induction l with
  | nil => simp [sortByCreatedDesc]
  | cons x xs ih => simp [sortByCreatedDesc, mem_insertByCreatedDesc, ih]

theorem descSorted_insert {t : TaskRow} {l : List TaskRow} (h : DescSorted l) :
    DescSorted (insertByCreatedDesc t l) := by
  induction l with
  | nil => simp [insertByCreatedDesc, DescSorted]
  | cons x xs ih =>
    rcases (List.pairwise_cons.mp h) with ⟨hx, hxs⟩
    by_cases hle : x.createdAt ≤ t.createdAt
    · have heq : insertByCreatedDesc t (x :: xs) = t :: x :: xs := by
        simp [insertByCreatedDesc, hle]
      rw [heq]
      refine List.pairwise_cons.mpr ⟨?_, h⟩
      intro u hu
      rcases List.mem_cons.mp hu with rfl | hu'
      · exact hle
      · exact le_trans (hx u hu') hle
    · have heq : insertByCreatedDesc t (x :: xs) = x :: insertByCreatedDesc t xs := by
        simp [insertByCreatedDesc, hle]
      rw [heq]
      refine List.pairwise_cons.mpr ⟨?_, ih hxs⟩
      intro u hu
      rcases mem_insertByCreatedDesc.mp hu with rfl | hu'
      · exact Nat.le_of_not_le hle
      · exact hx u hu'

theorem descSorted_sort (l : List TaskRow) : DescSorted (sortByCreatedDesc l) := by
  induction l with
  | nil => exact List.Pairwise.nil
  | cons x xs ih => exact descSorted_insert ih

theorem find?_descSorted_max {p : TaskRow → Bool} {l : List TaskRow} {x : TaskRow}
    (hs : DescSorted l) (hf : l.find? p = some x) :
    ∀ y ∈ l, p y = true → y.createdAt ≤ x.createdAt := by
  induction l with
  | nil => simp at hf
  | cons a rest ih =>
    rcases (List.pairwise_cons.mp hs) with ⟨ha, hrest⟩
    intro y hy hpy
    by_cases hpa : p a = true
    · have hx : x = a := by
        rw [List.find?_cons, hpa] at hf
        exact (Option.some.injEq _ _).mp hf.symm
      subst hx
      rcases List.mem_cons.mp hy with rfl | hy'
      · exact le_refl _
      · exact ha y hy'
    · rw [List.find?_cons] at hf
      have hpa' : p a = false := by
        cases h : p a
        · rfl
        · exact absurd h hpa
      rw [hpa'] at hf
      rcases List.mem_cons.mp hy with rfl | hy'
      · exact absurd hpy hpa
      · exact ih hrest hf y hy' hpy

theorem find?_uniqueTaskIds {l : List TaskRow} {t : TaskRow}
    (hu : uniqueTaskIds l = true) (ht : t ∈ l) :
    l.find? (fun u => u.id == t.id) = some t := by
  induction l with
  | nil => simp at ht
  | cons a rest ih =>
    have hu' : rest.all (fun u => u.id != a.id) = true ∧ uniqueTaskIds rest = true := by
      simpa [uniqueTaskIds, Bool.and_eq_true] using hu
    rcases List.mem_cons.mp ht with rfl | ht'
    · rw [List.find?_cons]
      simp
    · have hne : t.id ≠ a.id :=
        bne_iff_ne.mp (List.all_eq_true.mp hu'.1 t ht')
      rw [List.find?_cons]
      have : (a.id == t.id) = false := beq_eq_false_iff_ne.mpr (fun h => hne h.symm)
      rw [this]
      exact ih hu'.2 ht'

/-- markRecipients does not change the key fields of any row. -/
theorem markRecipients_key_pres (tid0 : Nat) (cid0 : Int) (ns : String)
    (r : RecipientRow) :
    ((if r.taskId == tid0 && r.chatId == cid0 then { r with status := ns } else r) :
        RecipientRow).taskId = r.taskId ∧
    ((if r.taskId == tid0 && r.chatId == cid0 then { r with status := ns } else r) :
        RecipientRow).chatId = r.chatId := by
  by_cases h : (r.taskId == tid0 && r.chatId == cid0) = true <;> simp [h]

/-- Finding a recipient row by key after markRecipients. -/
theorem find?_markRecipients (l : List RecipientRow) (tid0 : Nat) (cid0 : Int)
    (ns : String) (tid : Nat) (cid : Int) :
    (markRecipients l tid0 cid0 ns).find? (fun r => r.taskId == tid && r.chatId == cid)
      = Option.map
          (fun r => if r.taskId == tid0 && r.chatId == cid0 then { r with status := ns } else r)
          (l.find? (fun r => r.taskId == tid && r.chatId == cid)) := by
  unfold markRecipients
  apply find?_map_pres
  intro r
  rcases markRecipients_key_pres tid0 cid0 ns r with ⟨h1, h2⟩
  rw [h1, h2]

/-- Finding a task row by id after markTaskCompleted. -/
theorem find?_markTaskCompleted (l : List TaskRow) (tid0 tid : Nat) :
    (markTaskCompleted l tid0).find? (fun t => t.id == tid)
      = Option.map (fun t => if t.id == tid0 then { t with status := "completed" } else t)
          (l.find? (fun t => t.id == tid)) := by
  unfold markTaskCompleted
  apply find?_map_pres
  intro t
  by_cases h : (t.id == tid0) = true <;> simp [h]

/-- After one completion transaction, an existing recipient row's status is
either unchanged or 'completed'. -/
theorem recStatus_applyStatusUpdate {s : DBState} {tid0 : Nat} {cid0 : Int}
    {tid : Nat} {cid : Int} {st : String}
    (h : recStatus s tid cid = some st) :
    ∃ st1, recStatus (applyStatusUpdate s tid0 cid0 "completed") tid cid = some st1 ∧
      (st1 = st ∨ st1 = "completed") := by
  have hrec : (applyStatusUpdate s tid0 cid0 "completed").recipients
      = markRecipients s.recipients tid0 cid0 "completed" := rfl
  unfold recStatus at h ⊢
  rw [hrec, find?_markRecipients]
  rcases Option.map_eq_some'.mp h with ⟨r, hr, hst⟩
  rw [hr]
  by_cases hk : (r.taskId == tid0 && r.chatId == cid0) = true
  · have hk' : r.taskId = tid0 ∧ r.chatId = cid0 := by simpa using hk
    exact ⟨"completed", by simp [hk'], Or.inr rfl⟩
  · have hk' : ¬(r.taskId = tid0 ∧ r.chatId = cid0) := by simpa using hk
    exact ⟨st, by simp [hk', hst], Or.inl rfl⟩

/-- After one completion transaction, an existing task row's status is either
unchanged or 'completed'. -/
theorem taskStatus_applyStatusUpdate {s : DBState} {tid0 : Nat} {cid0 : Int}
    {ns : String} {tid : Nat} {st : String}
    (h : taskStatus s tid = some st) :
    ∃ st1, taskStatus (applyStatusUpdate s tid0 cid0 ns) tid = some st1 ∧
      (st1 = st ∨ st1 = "completed") := by
  have htasks : (applyStatusUpdate s tid0 cid0 ns).tasks
      = if completionRecount (markRecipients s.recipients tid0 cid0 ns) tid0
        then markTaskCompleted s.tasks tid0 else s.tasks := rfl
  unfold taskStatus at h ⊢
  rw [htasks]
  cases hC : completionRecount (markRecipients s.recipients tid0 cid0 ns) tid0
  · rw [if_neg (by simp [hC])]
    exact ⟨st, h, Or.inl rfl⟩
  · rw [if_pos rfl, find?_markTaskCompleted]
    rcases Option.map_eq_some'.mp h with ⟨t, ht, hst⟩
    rw [ht]
    by_cases hk : (t.id == tid0) = true
    · have hk' : t.id = tid0 := by simpa using hk
      exact ⟨"completed", by simp [hk'], Or.inr rfl⟩
    · have hk' : ¬(t.id = tid0) := by simpa using hk
      exact ⟨st, by simp [hk', hst], Or.inl rfl⟩

/-- The recount succeeds exactly when the task has at least one recipient row
and every one of them is completed. -/
theorem completionRecount_iff (recips : List RecipientRow) (tid : Nat) :
    completionRecount recips tid = true ↔
      (recips.filter (fun r => r.taskId == tid) ≠ [] ∧
       (recips.filter (fun r => r.taskId == tid)).all
         (fun r => r.status == "completed") = true) := by
  unfold completionRecount
  simp only [Bool.and_eq_true, bne_iff_ne, ne_eq, beq_iff_eq]
  constructor
  · rintro ⟨h1, h2⟩
    refine ⟨fun hnil => h1 (by simp [hnil]), ?_⟩
    exact (length_filter_eq_iff_all _ _).mp h2.symm
  · rintro ⟨h1, h2⟩
    refine ⟨fun hlen => h1 (List.eq_nil_of_length_eq_zero hlen), ?_⟩
    exact ((length_filter_eq_iff_all _ _).mpr h2).symm

/-- Core of the completion-aggregation property: when the task exists, is
active, and has at least one recipient row, the completion transaction leaves
the task 'completed' exactly when, afterwards, every one of its recipient
rows is 'completed'. -/
theorem applyStatusUpdate_completed_iff (s : DBState) (tid : Nat) (cid : Int)
    (hactive : taskStatus s tid = some "active")
    (hrec : hasRecipient s tid = true) :
    (taskStatus (applyStatusUpdate s tid cid "completed") tid = some "completed")
      ↔ allRecipientsCompleted (applyStatusUpdate s tid cid "completed") tid = true := by
  have hrecips : (applyStatusUpdate s tid cid "completed").recipients
      = markRecipients s.recipients tid cid "completed" := rfl
  have htasks : (applyStatusUpdate s tid cid "completed").tasks
      = if completionRecount (markRecipients s.recipients tid cid "completed") tid
        then markTaskCompleted s.tasks tid else s.tasks := rfl
  have htarget :
      (markRecipients s.recipients tid cid "completed").filter
        (fun r => r.taskId == tid) ≠ [] := by
    rcases List.any_eq_true.mp hrec with ⟨r, hrmem, hrid⟩
    have hmem :
        (if r.taskId == tid && r.chatId == cid then { r with status := "completed" } else r)
          ∈ markRecipients s.recipients tid cid "completed" :=
      List.mem_map.mpr ⟨r, hrmem, rfl⟩
    have hid :
        ((if r.taskId == tid && r.chatId == cid then { r with status := "completed" } else r) :
          RecipientRow).taskId == tid := by
      rw [(markRecipients_key_pres tid cid "completed" r).1]
      exact hrid
    exact List.ne_nil_of_mem (List.mem_filter.mpr ⟨hmem, hid⟩)
  unfold allRecipientsCompleted
  rw [hrecips]
  cases hC : completionRecount (markRecipients s.recipients tid cid "completed") tid
  · have hts : taskStatus (applyStatusUpdate s tid cid "completed") tid = some "active" := by
      unfold taskStatus
      rw [htasks, if_neg (by simp [hC])]
      exact hactive
    rw [hts]
    constructor
    · intro hcontr
      exact absurd (Option.some.injEq _ _ |>.mp hcontr) (by decide)
    · intro hall
      have : completionRecount (markRecipients s.recipients tid cid "completed") tid = true :=
        (completionRecount_iff _ _).mpr ⟨htarget, hall⟩
      rw [hC] at this
      exact absurd this (by decide)
  · have hall := ((completionRecount_iff _ _).mp hC).2
    have hts : taskStatus (applyStatusUpdate s tid cid "completed") tid = some "completed" := by
      unfold taskStatus
      rw [htasks, if_pos hC, find?_markTaskCompleted]
      unfold taskStatus at hactive
      rcases Option.map_eq_some'.mp hactive with ⟨t, ht, hst⟩
      have hid : t.id = tid := by
        have := List.find?_some ht
        simpa using this
      rw [ht]
      simp [hid]
    rw [hts, hall]
    simp

/-- Destructuring a successful text-reply completion. -/
theorem handle_text_reply_completed {s : DBState} {cid : Int} {msg : String}
    {s' : DBState} {tid : Nat}
    (h : handle_text_reply s cid msg = (s', TextReplyOutcome.completed tid)) :
    ∃ txt t, extract_task_text msg = some txt ∧
      chatRegistered s cid = true ∧
      (activeTasksForChat s cid).find? (fun u => strip u.text == txt) = some t ∧
      t.id = tid ∧ s' = applyStatusUpdate s t.id cid "completed" := by
  unfold handle_text_reply at h
  cases hx : extract_task_text msg with
  | none => rw [hx] at h; simp at h
  | some txt =>
    rw [hx] at h
    cases hreg : chatRegistered s cid with
    | false => rw [hreg] at h; simp at h
    | true =>
      rw [hreg] at h
      simp only [Bool.not_true, Bool.false_eq_true, if_false] at h
      cases hf : (activeTasksForChat s cid).find? (fun u => strip u.text == txt) with
      | none => rw [hf] at h; simp at h
      | some t =>
        rw [hf] at h
        have h1 : applyStatusUpdate s t.id cid "completed" = s' := congrArg Prod.fst h
        have h2 : TextReplyOutcome.completed t.id = TextReplyOutcome.completed tid :=
          congrArg Prod.snd h
        have h3 : t.id = tid := by injection h2
        exact ⟨txt, t, rfl, rfl, hf, h3, h1.symm⟩

/-- Destructuring a successful media-reply completion. -/
theorem handle_media_reply_completed {s : DBState} {cid : Int} {msg fid ft : String}
    {s' : DBState} {tid : Nat}
    (h : handle_media_reply s cid msg fid ft = (s', MediaReplyOutcome.completed tid)) :
    ∃ txt t, extract_media_task_text msg = some txt ∧
      (mediaMatchCandidates s cid txt).head? = some t ∧
      t.id = tid ∧
      s' = applyStatusUpdate
            { s with responseMedia := s.responseMedia ++ [⟨t.id, cid, fid, ft⟩] }
            t.id cid "completed" := by
  cases hx : extract_media_task_text msg with
  | none => simp [handle_media_reply, hx] at h
  | some txt =>
    cases hh : (mediaMatchCandidates s cid txt).head? with
    | none => simp [handle_media_reply, hx, hh] at h
    | some t =>
      have hred : handle_media_reply s cid msg fid ft
          = (applyStatusUpdate
              { s with responseMedia := s.responseMedia ++ [⟨t.id, cid, fid, ft⟩] }
              t.id cid "completed", MediaReplyOutcome.completed t.id) := by
        unfold handle_media_reply
        rw [hx]
        dsimp only
        rw [hh]
      rw [hred] at h
      rw [Prod.mk.injEq] at h
      have h3 : t.id = tid := by
        have := h.2
        injection this
      exact ⟨txt, t, rfl, hh, h3, h.1.symm⟩

theorem isPrefixCh_append_self (pat rest : List Char) :
    isPrefixCh pat (pat ++ rest) = true := by
  induction pat with
  | nil => rfl
  | cons a ps ih => simp [isPrefixCh, ih]

theorem containsCh_append_self (pat rest : List Char) (h : pat ≠ []) :
    containsCh pat (pat ++ rest) = true := by
  cases pat with
  | nil => exact absurd rfl h
  | cons a ps =>
    show containsCh (a :: ps) ((a :: ps) ++ rest) = true
    rw [List.cons_append]
    simp only [containsCh]
    rw [show (a :: (ps ++ rest)) = (a :: ps) ++ rest from rfl, isPrefixCh_append_self]
    rfl

theorem afterFirst_append_self (pat rest : List Char) (h : pat ≠ []) :
    afterFirst pat (pat ++ rest) = some rest := by
  cases pat with
  | nil => exact absurd rfl h
  | cons a ps =>
    show afterFirst (a :: ps) ((a :: ps) ++ rest) = some rest
    rw [List.cons_append]
    simp only [afterFirst]
    rw [show (a :: (ps ++ rest)) = (a :: ps) ++ rest from rfl, isPrefixCh_append_self]
    simp [List.drop_left]

theorem trimChars_cons_space (l : List Char) : trimChars (' ' :: l) = trimChars l := by
  simp [trimChars, List.dropWhile_cons, wsChar]

/-- toList of the announcement message f"📝 Новое задание: {x}". -/
theorem announcement_toList (x : String) :
    (announcementMarker ++ " " ++ x).toList
      = announcementMarker.toList ++ (' ' :: x.toList) := by
  show ((announcementMarker ++ " ") ++ x).data = announcementMarker.data ++ (' ' :: x.data)
  rw [String.data_append, String.data_append, List.append_assoc]
  rfl

/-- The text path extracts the stripped task text from an announcement. -/
theorem extract_task_text_announcement (x : String) :
    extract_task_text (announcementMarker ++ " " ++ x) = some (strip x) := by
  unfold extract_task_text
  rw [show (announcementMarker ++ " " ++ x).toList
        = announcementMarker.toList ++ (' ' :: x.toList) from announcement_toList x]
  rw [isPrefixCh_append_self]
  simp only [if_true]
  rw [List.drop_left, trimChars_cons_space]
  rfl

/-- The media path extracts the stripped task text from an announcement,
rejecting an empty result (Python truthiness at bot.py 429). -/
theorem extract_media_task_text_announcement (x : String) :
    extract_media_task_text (announcementMarker ++ " " ++ x)
      = if (trimChars x.toList).isEmpty then none else some (strip x) := by
  unfold extract_media_task_text
  rw [announcement_toList x]
  dsimp only
  rw [containsCh_append_self _ _ (by decide)]
  simp only [if_true]
  rw [afterFirst_append_self _ _ (by decide)]
  simp only [Option.map_some', trimChars_cons_space]
  cases he : (trimChars x.toList).isEmpty
  · simp [he]
    rfl
  · simp [he]

/-! ## Claim theorems -/

/-- C1: for every task with at least one recipient row, the completion
operation — the transaction both reply handlers run after marking one
recipient — leaves the task's status 'completed' exactly when every one of
its recipient rows is 'completed'; the total-vs-completed recount runs inside
that same operation, so marking the last pending recipient flips the task in
the same step. -/
theorem task_completed_iff_all_recipients_completed :
    (∀ (s : DBState) (cid : Int) (msg : String) (s' : DBState) (tid : Nat),
        uniqueTaskIds s.tasks = true →
        handle_text_reply s cid msg = (s', TextReplyOutcome.completed tid) →
        ((taskStatus s' tid = some "completed") ↔ allRecipientsCompleted s' tid = true)) ∧
    (∀ (s : DBState) (cid : Int) (msg fid ft : String) (s' : DBState) (tid : Nat),
        uniqueTaskIds s.tasks = true →
        handle_media_reply s cid msg fid ft = (s', MediaReplyOutcome.completed tid) →
        ((taskStatus s' tid = some "completed") ↔ allRecipientsCompleted s' tid = true)) := by
  constructor
  · intro s cid msg s' tid hu h
    rcases handle_text_reply_completed h with ⟨txt, t, hx, hreg, hf, hid, hs'⟩
    subst hs'
    subst hid
    have htmem : t ∈ s.tasks ∧ (t.status == "active" && pendingRecFor s t.id cid) = true := by
      have h1 := List.mem_of_find?_eq_some hf
      have h2 := mem_sortByCreatedDesc.mp h1
      exact List.mem_filter.mp h2
    have hactive : taskStatus s t.id = some "active" := by
      unfold taskStatus
      rw [find?_uniqueTaskIds hu htmem.1]
      have hst : t.status = "active" := beq_iff_eq.mp (band_elim htmem.2).1
      simp [hst]
    have hrec : hasRecipient s t.id = true := by
      have hp : pendingRecFor s t.id cid = true := (band_elim htmem.2).2
      unfold pendingRecFor at hp
      rcases List.any_eq_true.mp hp with ⟨r, hrm, hrc⟩
      unfold hasRecipient
      exact List.any_eq_true.mpr ⟨r, hrm, (band_elim (band_elim hrc).1).1⟩
    exact applyStatusUpdate_completed_iff s t.id cid hactive hrec
  · intro s cid msg fid ft s' tid hu h
    rcases handle_media_reply_completed h with ⟨txt, t, hx, hh, hid, hs'⟩
    subst hs'
    subst hid
    have htc : t ∈ mediaMatchCandidates s cid txt := by
      cases hl : mediaMatchCandidates s cid txt with
      | nil => rw [hl] at hh; simp at hh
      | cons a rest =>
        rw [hl] at hh
        have : a = t := by simpa using hh
        rw [← this]
        exact List.mem_cons_self a rest
    have htmem :
        t ∈ s.tasks ∧ ((t.status == "active" && t.text == txt) && pendingRecFor s t.id cid) = true :=
      List.mem_filter.mp htc
    refine applyStatusUpdate_completed_iff _ t.id cid ?_ ?_
    · show taskStatus s t.id = some "active"
      unfold taskStatus
      rw [find?_uniqueTaskIds hu htmem.1]
      have hst : t.status = "active" :=
        beq_iff_eq.mp (band_elim (band_elim htmem.2).1).1
      simp [hst]
    · show hasRecipient s t.id = true
      have hp : pendingRecFor s t.id cid = true := (band_elim htmem.2).2
      unfold pendingRecFor at hp
      rcases List.any_eq_true.mp hp with ⟨r, hrm, hrc⟩
      unfold hasRecipient
      exact List.any_eq_true.mpr ⟨r, hrm, (band_elim (band_elim hrc).1).1⟩

/-- Witness for C1: in c1State recipient 6 is already completed; the text
reply of recipient 5 marks the last pending recipient, and the task flips to
'completed' in the same step. -/
theorem task_completed_iff_all_recipients_completed_witness :
    uniqueTaskIds c1State.tasks = true ∧
    handle_text_reply c1State 5 "📝 Новое задание: Do" = (c1After, TextReplyOutcome.completed 1) ∧
    ((taskStatus c1After 1 = some "completed") ↔ allRecipientsCompleted c1After 1 = true) :=
  ⟨by decide, by decide,
    task_completed_iff_all_recipients_completed.1 c1State 5 "📝 Новое задание: Do" c1After 1
      (by decide) (by decide)⟩

/-- C2: `Database.update_task_status` raises `OperationalError: no such
column: tr.id` on every invocation — its guard SELECT references a column
that does not exist in task_recipients — so it never succeeds, and the
not-found branch that would log and silently return never runs.  The
transaction is rolled back, so the state is unchanged. -/
theorem update_task_status_always_raises :
    ∀ (s : DBState) (task_id : Nat) (chat_id : Int) (st : String),
      update_task_status s task_id chat_id st = Except.error "no such column: tr.id" :=
  fun _ _ _ _ => rfl

/-- C3 counterexample: the stored task text "Buy milk " carries a trailing
space.  Replying to its announcement, the text path matches (both sides are
stripped before comparison) and completes task 1, but the media path compares
the stripped extracted text against the raw stored text and finds nothing —
so trimming is not applied identically in both matching paths. -/
theorem media_path_does_not_trim_stored_text :
    (handle_text_reply c3State 5 (announcementMarker ++ " " ++ "Buy milk ")).2
        = TextReplyOutcome.completed 1 ∧
    (handle_media_reply c3State 5 (announcementMarker ++ " " ++ "Buy milk ") "f" "photo").2
        = MediaReplyOutcome.notFound := by
  constructor
  · decide
  · decide

/-- C3 (amended): both reply paths strip the extracted announcement text and
compare case-sensitively; the text path also strips the stored task text
before comparing, but the media path matches the raw stored text, so a reply
to the announcement of an active pending task always matches in the text path
while in the media path it matches exactly when the stored text equals its own
stripped form. -/
theorem reply_trim_text_path_only
    (t : TaskRow) (cid : Int) (title fid ft : String)
    (hact : t.status = "active") (hne : strip t.text ≠ "") :
    (handle_text_reply (mkSingleTaskState t cid title) cid
        (announcementMarker ++ " " ++ t.text)).2 = TextReplyOutcome.completed t.id ∧
    ((handle_media_reply (mkSingleTaskState t cid title) cid
        (announcementMarker ++ " " ++ t.text) fid ft).2 = MediaReplyOutcome.completed t.id
      ↔ t.text = strip t.text) := by
  have hreg : chatRegistered (mkSingleTaskState t cid title) cid = true := by
    simp [chatRegistered, mkSingleTaskState]
  have hpend : pendingRecFor (mkSingleTaskState t cid title) t.id cid = true := by
    simp [pendingRecFor, mkSingleTaskState]
  have hpred : (t.status == "active" && pendingRecFor (mkSingleTaskState t cid title) t.id cid)
      = true := by
    rw [hact, hpend]
    rfl
  constructor
  · unfold handle_text_reply
    rw [extract_task_text_announcement t.text]
    rw [hreg]
    dsimp only
    have hcand : activeTasksForChat (mkSingleTaskState t cid title) cid = [t] := by
      unfold activeTasksForChat
      rw [show (mkSingleTaskState t cid title).tasks = [t] from rfl]
      rw [List.filter_cons]
      rw [hpred]
      simp [sortByCreatedDesc, insertByCreatedDesc]
    rw [hcand]
    rw [List.find?_cons]
    rw [show (strip t.text == strip t.text) = true from beq_self_eq_true _]
    simp
  · have hne' : (trimChars t.text.toList).isEmpty = false := by
      cases h : (trimChars t.text.toList).isEmpty
      · rfl
      · exfalso
        apply hne
        unfold strip
        have hnil : trimChars t.text.toList = [] := by
          cases hl : trimChars t.text.toList with
          | nil => rfl
          | cons c cs => rw [hl] at h; simp at h
        rw [hnil]
    unfold handle_media_reply
    rw [extract_media_task_text_announcement t.text]
    rw [if_neg (by rw [hne']; exact fun hcontr => absurd hcontr (by decide))]
    dsimp only
    by_cases heq : t.text = strip t.text
    · have hcand : mediaMatchCandidates (mkSingleTaskState t cid title) cid (strip t.text)
          = [t] := by
        unfold mediaMatchCandidates
        rw [show (mkSingleTaskState t cid title).tasks = [t] from rfl]
        rw [List.filter_cons]
        rw [hact]
        rw [show ("active" == "active") = true from rfl]
        rw [← heq, beq_self_eq_true, hpend]
        rfl
      rw [hcand]
      exact ⟨fun _ => heq, fun _ => rfl⟩
    · have hcand : mediaMatchCandidates (mkSingleTaskState t cid title) cid (strip t.text)
          = [] := by
        unfold mediaMatchCandidates
        rw [show (mkSingleTaskState t cid title).tasks = [t] from rfl]
        rw [List.filter_cons]
        rw [show (t.text == strip t.text) = false from beq_eq_false_iff_ne.mpr heq]
        simp
      rw [hcand]
      exact ⟨fun hcontr => absurd hcontr (by simp), fun hcontr => absurd hcontr heq⟩

/-- Witness for C3 (amended) at a concrete task with already-trimmed text:
the reply matches in both paths. -/
theorem reply_trim_text_path_only_witness :
    (⟨1, "Buy milk", "active", 7, 0⟩ : TaskRow).status = "active" ∧
    strip ("Buy milk" : String) ≠ "" ∧
    ((handle_text_reply (mkSingleTaskState ⟨1, "Buy milk", "active", 7, 0⟩ 5 "A") 5
        (announcementMarker ++ " " ++ "Buy milk")).2 = TextReplyOutcome.completed 1 ∧
     ((handle_media_reply (mkSingleTaskState ⟨1, "Buy milk", "active", 7, 0⟩ 5 "A") 5
        (announcementMarker ++ " " ++ "Buy milk") "f" "photo").2 = MediaReplyOutcome.completed 1
        ↔ ("Buy milk" : String) = strip "Buy milk")) :=
  ⟨rfl, by decide,
    reply_trim_text_path_only ⟨1, "Buy milk", "active", 7, 0⟩ 5 "A" "f" "photo" rfl (by decide)⟩

/-- C4: evaluation of the confirmed fan-out of "Buy milk" to chats A(1), B(2),
C(3) when the send to chat 2 fails.  All three sends are attempted (the
failure does not abort the loop), only the successful chats 1 and 3 get
pending task_recipients rows, chat 2 gets none, and the report counts 2 of 3
delivered.  However the rows are registered under task_id 0 — the value
create_task returned from last_insert_rowid() on a fresh connection — while
the created task has id 1, so the task itself ends up with no recipients at
all (and its recipient set is vacuously all-completed). -/
theorem fanout_registers_recipients_under_id_zero :
    handle_confirm c4State (some "Buy milk") 42 0 [] ["A", "B", "C"] (fun c => !(c == 2))
      = Except.ok (c4After, some (2, 3)) ∧
    hasRecipient c4After 1 = false ∧
    recStatus c4After 0 1 = some "pending" ∧
    recStatus c4After 0 2 = none ∧
    recStatus c4After 0 3 = some "pending" :=
  ⟨rfl, by decide, by decide, by decide, by decide⟩

/-- C5 counterexample: c5State has two active tasks with identical text
"Do it", both pending for chat 5, task 2 being the more recently created.
The text reply resolves to the most recent task 2, but the media path, whose
lookup has no ORDER BY and takes the first row in table order, completes the
older task 1 — so the most-recent tie-break does not hold in every
reply-matching path. -/
theorem media_path_ignores_recency :
    (handle_text_reply c5State 5 (announcementMarker ++ " " ++ "Do it")).2
        = TextReplyOutcome.completed 2 ∧
    (handle_media_reply c5State 5 (announcementMarker ++ " " ++ "Do it") "f" "photo").2
        = MediaReplyOutcome.completed 1 :=
  ⟨by decide, by decide⟩

/-- C5 (amended): in the text-reply path, when several stored tasks match the
extracted reply text, the task the handler completes is a matching one whose
created_at is maximal — the most recently created matching task wins.  (The
media path takes the first row of an unordered query instead.) -/
theorem text_reply_resolves_to_most_recent
    (s : DBState) (cid : Int) (msg : String) (s' : DBState) (tid : Nat) (txt : String)
    (hx : extract_task_text msg = some txt)
    (h : handle_text_reply s cid msg = (s', TextReplyOutcome.completed tid)) :
    ∃ t, t ∈ s.tasks ∧ t.id = tid ∧ textReplyCandidate s cid txt t = true ∧
      ∀ u ∈ s.tasks, textReplyCandidate s cid txt u = true → u.createdAt ≤ t.createdAt := by
  rcases handle_text_reply_completed h with ⟨txt2, t, hx2, hreg, hf, hid, hs'⟩
  have htxt : txt2 = txt := by
    rw [hx] at hx2
    injection hx2 with he
    exact he.symm
  subst htxt
  have hsorted : DescSorted (activeTasksForChat s cid) := descSorted_sort _
  have htmem := List.mem_filter.mp (mem_sortByCreatedDesc.mp (List.mem_of_find?_eq_some hf))
  have hstript := List.find?_some hf
  refine ⟨t, htmem.1, hid, ?_, ?_⟩
  · unfold textReplyCandidate
    rw [htmem.2, show (strip t.text == txt2) = true from hstript]
    rfl
  · intro u hu hcand
    unfold textReplyCandidate at hcand
    rcases band_elim hcand with ⟨hu1, hu2⟩
    have humem : u ∈ activeTasksForChat s cid := by
      unfold activeTasksForChat
      exact mem_sortByCreatedDesc.mpr (List.mem_filter.mpr ⟨hu, hu1⟩)
    exact find?_descSorted_max hsorted hf u humem hu2

/-- Witness for C5 (amended): in c5State the text reply completes task 2,
which is a matching candidate of maximal created_at. -/
theorem text_reply_resolves_to_most_recent_witness :
    extract_task_text (announcementMarker ++ " " ++ "Do it") = some "Do it" ∧
    handle_text_reply c5State 5 (announcementMarker ++ " " ++ "Do it")
      = (c5After, TextReplyOutcome.completed 2) ∧
    (∃ t, t ∈ c5State.tasks ∧ t.id = 2 ∧ textReplyCandidate c5State 5 "Do it" t = true ∧
      ∀ u ∈ c5State.tasks, textReplyCandidate c5State 5 "Do it" u = true →
        u.createdAt ≤ t.createdAt) :=
  ⟨by decide, by decide,
    text_reply_resolves_to_most_recent c5State 5 (announcementMarker ++ " " ++ "Do it")
      c5After 2 "Do it" (by decide) (by decide)⟩

/-- C8 counterexample: create_task called with empty text on an empty
database inserts a task row with text "" and status 'active', and returns
normally (with id 0, see the create_task docstring) — no validation error
occurs and state is mutated. -/
theorem create_task_inserts_empty_text :
    create_task c8State "" 42 0 = (⟨[], [⟨1, "", "active", 42, 0⟩], [], [], [], 2⟩, 0) :=
  rfl

/-- C8 (amended): create_task itself performs no validation at all — every
call, including one with empty text, appends a task row with status 'active'
(and returns 0 instead of the new id); the rejection of empty task text
happens only in the confirm handler, which returns the error outcome without
calling create_task and leaves the state unchanged. -/
theorem create_task_no_validation :
    (∀ (s : DBState) (text : String) (cb : Int) (ca : Nat),
        (create_task s text cb ca).1.tasks
          = s.tasks ++ [⟨s.nextTaskId, text, "active", cb, ca⟩] ∧
        (create_task s text cb ca).2 = 0) ∧
    (∀ (s : DBState) (cb : Int) (ca : Nat) (mf : List (String × String))
        (titles : List String) (sendOk : Int → Bool),
        handle_confirm s (some "") cb ca mf titles sendOk = Except.ok (s, none)) :=
  ⟨fun _ _ _ _ => ⟨rfl, rfl⟩, fun _ _ _ _ _ _ => rfl⟩

/-- C9 counterexample: a storage failure inside get_active_tasks is converted
into an empty mapping — a silent empty result — instead of being propagated. -/
theorem get_active_tasks_swallows_storage_failure :
    get_active_tasks (Except.error "disk I/O error") = [] := rfl

/-- C9 (amended): a storage failure inside execute_query rolls the statement
back — the persisted state is the pre-call state — and is re-raised to the
caller; but get_active_tasks catches every failure of its query and returns
an empty mapping, converting the failure into a silent empty result. -/
theorem storage_failure_rollback_but_swallowed_in_reads :
    (∀ (α : Type) (s : DBState) (e : String),
        execute_query (α := α) s (Except.error e) = (s, Except.error e)) ∧
    (∀ (e : String), get_active_tasks (Except.error e) = []) :=
  ⟨fun _ _ _ => rfl, fun _ => rfl⟩

/-- The state component of the text-reply handler: either unchanged or one
completion transaction. -/
theorem handle_text_reply_state (s : DBState) (cid : Int) (msg : String) :
    (handle_text_reply s cid msg).1 = s ∨
    ∃ tid0, (handle_text_reply s cid msg).1 = applyStatusUpdate s tid0 cid "completed" := by
  unfold handle_text_reply
  cases hx : extract_task_text msg with
  | none => exact Or.inl rfl
  | some txt =>
    cases hreg : chatRegistered s cid with
    | false => exact Or.inl rfl
    | true =>
      cases hf : (activeTasksForChat s cid).find? (fun u => strip u.text == txt) with
      | none => simp [hf]
      | some t =>
        simp only [hf]
        exact Or.inr ⟨t.id, rfl⟩

/-- The state component of the media-reply handler: either unchanged or one
completion transaction on the state extended with a response_media row. -/
theorem handle_media_reply_state (s : DBState) (cid : Int) (msg fid ft : String) :
    (handle_media_reply s cid msg fid ft).1 = s ∨
    ∃ tid0 m,
      (handle_media_reply s cid msg fid ft).1
        = applyStatusUpdate { s with responseMedia := m } tid0 cid "completed" := by
  unfold handle_media_reply
  cases hx : extract_media_task_text msg with
  | none => exact Or.inl rfl
  | some txt =>
    cases hh : (mediaMatchCandidates s cid txt).head? with
    | none => simp [hh]
    | some t =>
      refine Or.inr ⟨t.id, s.responseMedia ++ [⟨t.id, cid, fid, ft⟩], ?_⟩
      simp [hh]

/-- One operation step never moves an existing recipient row's status to
anything but its old value or 'completed'. -/
theorem recStatus_stepOp (op : Op) {s : DBState} {tid : Nat} {cid : Int} {st : String}
    (h : recStatus s tid cid = some st) :
    ∃ st1, recStatus (stepOp s op) tid cid = some st1 ∧ (st1 = st ∨ st1 = "completed") := by
  cases op with
  | createTask text cb ca => exact ⟨st, h, Or.inl rfl⟩
  | addRecipient tid0 cid0 gid =>
    show ∃ st1,
      recStatus (match add_task_recipient s tid0 cid0 gid with
        | Except.ok s' => s'
        | Except.error _ => s) tid cid = some st1 ∧ (st1 = st ∨ st1 = "completed")
    unfold add_task_recipient
    by_cases hex : (s.recipients.any fun r => r.taskId == tid0 && r.chatId == cid0) = true
    · rw [if_pos hex]
      exact ⟨st, h, Or.inl rfl⟩
    · rw [if_neg hex]
      unfold recStatus at h ⊢
      rcases Option.map_eq_some'.mp h with ⟨r, hr, hst⟩
      refine ⟨st, ?_, Or.inl rfl⟩
      rw [show (({ s with recipients := s.recipients ++ [⟨tid0, cid0, gid, "pending"⟩] } :
            DBState)).recipients = s.recipients ++ [⟨tid0, cid0, gid, "pending"⟩] from rfl]
      rw [find?_append_some hr]
      simp [hst]
  | textReply cid0 msg0 =>
    rcases handle_text_reply_state s cid0 msg0 with hst0 | ⟨tid0, hst0⟩
    · show ∃ st1, recStatus (handle_text_reply s cid0 msg0).1 tid cid = some st1 ∧ _
      rw [hst0]
      exact ⟨st, h, Or.inl rfl⟩
    · show ∃ st1, recStatus (handle_text_reply s cid0 msg0).1 tid cid = some st1 ∧ _
      rw [hst0]
      exact recStatus_applyStatusUpdate h
  | mediaReply cid0 msg0 fid ft =>
    rcases handle_media_reply_state s cid0 msg0 fid ft with hst0 | ⟨tid0, m, hst0⟩
    · show ∃ st1, recStatus (handle_media_reply s cid0 msg0 fid ft).1 tid cid = some st1 ∧ _
      rw [hst0]
      exact ⟨st, h, Or.inl rfl⟩
    · show ∃ st1, recStatus (handle_media_reply s cid0 msg0 fid ft).1 tid cid = some st1 ∧ _
      rw [hst0]
      exact recStatus_applyStatusUpdate (s := { s with responseMedia := m }) h
  | updateStatus tid0 cid0 st0 => exact ⟨st, h, Or.inl rfl⟩

/-- One operation step never moves an existing task row's status to anything
but its old value or 'completed'. -/
theorem taskStatus_stepOp (op : Op) {s : DBState} {tid : Nat} {st : String}
    (h : taskStatus s tid = some st) :
    ∃ st1, taskStatus (stepOp s op) tid = some st1 ∧ (st1 = st ∨ st1 = "completed") := by
  cases op with
  | createTask text cb ca =>
    unfold taskStatus at h ⊢
    rcases Option.map_eq_some'.mp h with ⟨t, ht, hst⟩
    refine ⟨st, ?_, Or.inl rfl⟩
    rw [show (stepOp s (Op.createTask text cb ca)).tasks
          = s.tasks ++ [⟨s.nextTaskId, text, "active", cb, ca⟩] from rfl]
    rw [find?_append_some ht]
    simp [hst]
  | addRecipient tid0 cid0 gid =>
    show ∃ st1,
      taskStatus (match add_task_recipient s tid0 cid0 gid with
        | Except.ok s' => s'
        | Except.error _ => s) tid = some st1 ∧ (st1 = st ∨ st1 = "completed")
    unfold add_task_recipient
    by_cases hex : (s.recipients.any fun r => r.taskId == tid0 && r.chatId == cid0) = true
    · rw [if_pos hex]
      exact ⟨st, h, Or.inl rfl⟩
    · rw [if_neg hex]
      exact ⟨st, h, Or.inl rfl⟩
  | textReply cid0 msg0 =>
    rcases handle_text_reply_state s cid0 msg0 with hst0 | ⟨tid0, hst0⟩
    · show ∃ st1, taskStatus (handle_text_reply s cid0 msg0).1 tid = some st1 ∧ _
      rw [hst0]
      exact ⟨st, h, Or.inl rfl⟩
    · show ∃ st1, taskStatus (handle_text_reply s cid0 msg0).1 tid = some st1 ∧ _
      rw [hst0]
      exact taskStatus_applyStatusUpdate h
  | mediaReply cid0 msg0 fid ft =>
    rcases handle_media_reply_state s cid0 msg0 fid ft with hst0 | ⟨tid0, m, hst0⟩
    · show ∃ st1, taskStatus (handle_media_reply s cid0 msg0 fid ft).1 tid = some st1 ∧ _
      rw [hst0]
      exact ⟨st, h, Or.inl rfl⟩
    · show ∃ st1, taskStatus (handle_media_reply s cid0 msg0 fid ft).1 tid = some st1 ∧ _
      rw [hst0]
      exact taskStatus_applyStatusUpdate (s := { s with responseMedia := m }) h
  | updateStatus tid0 cid0 st0 => exact ⟨st, h, Or.inl rfl⟩

/-- C7: over any sequence of the store's operations, an existing recipient
row's status can only stay what it is or become 'completed' (so
pending → completed is the only recipient transition and a completed row
never changes again), and likewise an existing task row's status can only
stay or become 'completed' (active → completed only, no reopening). -/
theorem statuses_never_regress :
    (∀ (s : DBState) (ops : List Op) (tid : Nat) (cid : Int) (st st' : String),
        recStatus s tid cid = some st →
        recStatus (runOps s ops) tid cid = some st' →
        st' = st ∨ st' = "completed") ∧
    (∀ (s : DBState) (ops : List Op) (tid : Nat) (st st' : String),
        taskStatus s tid = some st →
        taskStatus (runOps s ops) tid = some st' →
        st' = st ∨ st' = "completed") := by
  constructor
  · intro s ops
    induction ops generalizing s with
    | nil =>
      intro tid cid st st' h1 h2
      simp only [runOps] at h2
      rw [h1] at h2
      exact Or.inl (Option.some.injEq _ _ ▸ h2 :).symm
    | cons op ops ih =>
      intro tid cid st st' h1 h2
      simp only [runOps] at h2
      rcases recStatus_stepOp op h1 with ⟨st1, hst1, hd⟩
      rcases ih (stepOp s op) tid cid st1 st' hst1 h2 with he | he
      · rcases hd with hd | hd
        · exact Or.inl (he.trans hd)
        · exact Or.inr (he.trans hd)
      · exact Or.inr he
  · intro s ops
    induction ops generalizing s with
    | nil =>
      intro tid st st' h1 h2
      simp only [runOps] at h2
      rw [h1] at h2
      exact Or.inl (Option.some.injEq _ _ ▸ h2 :).symm
    | cons op ops ih =>
      intro tid st st' h1 h2
      simp only [runOps] at h2
      rcases taskStatus_stepOp op h1 with ⟨st1, hst1, hd⟩
      rcases ih (stepOp s op) tid st1 st' hst1 h2 with he | he
      · rcases hd with hd | hd
        · exact Or.inl (he.trans hd)
        · exact Or.inr (he.trans hd)
      · exact Or.inr he

/-- Witness for C7: a completed recipient and task stay completed across a
task creation, a recipient insert, a second reply to the already completed
task, and a Database.update_task_status call. -/
theorem statuses_never_regress_witness :
    recStatus c7State 1 5 = some "completed" ∧
    taskStatus c7State 1 = some "completed" ∧
    ("completed" = "completed" ∨ ("completed" : String) = "completed") ∧
    ("completed" = "completed" ∨ ("completed" : String) = "completed") :=
  ⟨by decide, by decide,
    statuses_never_regress.1 c7State c7Ops 1 5 "completed" "completed" (by decide) (by decide),
    statuses_never_regress.2 c7State c7Ops 1 "completed" "completed" (by decide) (by decide)⟩

/-- C10: the text-reply handler rejects a reply from an unregistered chat
with the chat-not-registered outcome before any matching or mutation — even
when pending recipient rows for that chat exist — while the media-reply
handler never consults the chats table at all: its entire behavior is
invariant under replacing the chats table. -/
theorem text_reply_checks_registration_media_does_not :
    (∀ (s : DBState) (cid : Int) (msg txt : String),
        extract_task_text msg = some txt →
        chatRegistered s cid = false →
        handle_text_reply s cid msg = (s, TextReplyOutcome.chatNotRegistered)) ∧
    (∀ (s : DBState) (cs : List ChatRow) (cid : Int) (msg fid ft : String),
        handle_media_reply { s with chats := cs } cid msg fid ft
          = ({ (handle_media_reply s cid msg fid ft).1 with chats := cs },
             (handle_media_reply s cid msg fid ft).2)) := by
  constructor
  · intro s cid msg txt hx hreg
    unfold handle_text_reply
    rw [hx, hreg]
    rfl
  · intro s cs cid msg fid ft
    have hcand : ∀ txt, mediaMatchCandidates { s with chats := cs } cid txt
        = mediaMatchCandidates s cid txt := fun _ => rfl
    cases hx : extract_media_task_text msg with
    | none =>
      have l1 : handle_media_reply { s with chats := cs } cid msg fid ft
          = ({ s with chats := cs }, MediaReplyOutcome.extractionFailed) := by
        unfold handle_media_reply
        rw [hx]
      have l2 : handle_media_reply s cid msg fid ft
          = (s, MediaReplyOutcome.extractionFailed) := by
        unfold handle_media_reply
        rw [hx]
      rw [l1, l2]
    | some txt =>
      cases hh : (mediaMatchCandidates s cid txt).head? with
      | none =>
        have l1 : handle_media_reply { s with chats := cs } cid msg fid ft
            = ({ s with chats := cs }, MediaReplyOutcome.notFound) := by
          unfold handle_media_reply
          rw [hx]
          dsimp only
          rw [hcand txt, hh]
        have l2 : handle_media_reply s cid msg fid ft
            = (s, MediaReplyOutcome.notFound) := by
          unfold handle_media_reply
          rw [hx]
          dsimp only
          rw [hh]
        rw [l1, l2]
      | some t =>
        have l1 : handle_media_reply { s with chats := cs } cid msg fid ft
            = (applyStatusUpdate
                (⟨cs, s.tasks, s.recipients, s.taskMedia,
                  s.responseMedia ++ [⟨t.id, cid, fid, ft⟩], s.nextTaskId⟩ : DBState)
                t.id cid "completed", MediaReplyOutcome.completed t.id) := by
          unfold handle_media_reply
          rw [hx]
          dsimp only
          rw [hcand txt, hh]
        have l2 : handle_media_reply s cid msg fid ft
            = (applyStatusUpdate
                { s with responseMedia := s.responseMedia ++ [⟨t.id, cid, fid, ft⟩] }
                t.id cid "completed", MediaReplyOutcome.completed t.id) := by
          unfold handle_media_reply
          rw [hx]
          dsimp only
          rw [hh]
        rw [l1, l2]
        rfl

/-- Witness for C10: chat 5 is not registered in c10State although a pending
recipient row for it exists; the text reply is rejected with the
chat-not-registered outcome and the state is unchanged. -/
theorem text_reply_checks_registration_witness :
    extract_task_text "📝 Новое задание: Do" = some "Do" ∧
    chatRegistered c10State 5 = false ∧
    handle_text_reply c10State 5 "📝 Новое задание: Do"
      = (c10State, TextReplyOutcome.chatNotRegistered) :=
  ⟨by decide, by decide,
    text_reply_checks_registration_media_does_not.1 c10State 5 "📝 Новое задание: Do" "Do"
      (by decide) (by decide)⟩
